import Mathlib

/-!
Shallow embedding of the real-time transcript ingestion and distribution
pipeline of the meeting-assistant backend (`backend/app/services/recallService.js`,
`backend/app/index.js`, `backend/app/routes/webhookController.js`,
`backend/app/models/Meeting.js`) and of the client transcript hook
(`frontend/src/hooks/useTranscription.ts`).

Conventions used throughout:
* JavaScript strings are `String`; machine timestamps (`Date` values) are `Nat`
  milliseconds; confidence values (`number`) are `Rat`.
* JavaScript truthiness on strings (`s || dflt`) is modelled by an explicit
  empty-string test; truthiness on numbers by a zero test; a `Date` object is
  always truthy, so `timestamp || new Date()` on a `Date` keeps the timestamp.
* `Map` objects (`activeBots`, `transcriptConnections`, `wsClients`) are
  modelled as insertion-ordered lists with unique keys; `Map.get` is `find?`.
* Network calls are modelled by passing the remote outcome as an explicit
  argument (`Option` response / success flag); console logging is not state
  and is omitted.
-/

namespace SayLess

/-! ## Bot registry (`recallService.activeBots`)

One entry of the `activeBots` map: `{ botId, meetingUrl, botName, userId,
status, createdAt }` (recallService.js lines 134-141). Wall-clock creation
times are abstracted to a `Nat` supplied by the caller. -/

structure BotInfo where
  botId : String
  meetingUrl : String
  botName : String
  userId : String
  status : String
  createdAt : Nat
  deriving Repr, DecidableEq

/-- The in-memory bot table `this.activeBots : Map botId -> metadata`,
as an insertion-ordered association list. -/
abbrev Registry := List BotInfo

/-- `this.activeBots.get(botId)` / `this.activeBots.has(botId)`. -/
def findBot (reg : Registry) (botId : String) : Option BotInfo :=
  reg.find? (fun b => b.botId == botId)

/-- `RecallService.getBotByUserId` (recallService.js lines 338-345): linear
scan of `activeBots.values()` for the first bot whose `userId` matches. -/
def getBotByUserId (reg : Registry) (userId : String) : Option BotInfo :=
  reg.find? (fun b => b.userId == userId)

/-! ## Provider responses

The provider returns `{ id, status }` where `status` is either an object
`{ code }` or a plain string; the service reads `bot.status?.code || bot.status`
(recallService.js lines 131 and 196). Status strings coming from the provider
are the non-empty enum words of the status machine (`created`, `joining`,
`in_call_recording`, `done`, ...), so the truthiness fallbacks of the `||`
chain reduce to picking the code when it is present. -/

inductive ProviderStatus where
  | coded (code : String)
  | plain (s : String)
  deriving Repr, DecidableEq

/-- `bot.status?.code || bot.status` on a provider status value. -/
def statusOf : ProviderStatus → String
  | .coded c => c
  | .plain s => s

structure GatewayBot where
  id : String
  status : ProviderStatus
  deriving Repr, DecidableEq

/-! ## Canonical transcript events

Shape emitted on the `'transcript'` event by both the webhook controller
(webhookController.js lines 78-86) and the WebSocket fallback
(recallService.js lines 299-307). -/

structure TranscriptEvent where
  botId : String
  userId : String
  speaker : String
  text : String
  isFinal : Bool
  timestamp : Nat
  confidence : Rat
  deriving Repr, DecidableEq

/-- JavaScript `s || dflt` for an optional string field: `undefined` and the
empty string are falsy. -/
def strOr (s : Option String) (dflt : String) : String :=
  match s with
  | some v => if v = "" then dflt else v
  | none => dflt

/-! ## Inbound webhook payloads (`POST /api/webhooks/recall`)

`{ event, data: { bot_id, segment: { speaker, text, words, is_final,
start_time, confidence }, status: { code } } }`, every field possibly
absent. -/

structure SegmentWord where
  text : String
  deriving Repr, DecidableEq

structure Segment where
  speaker : Option String
  text : Option String
  words : Option (List SegmentWord)
  is_final : Option Bool
  start_time : Option Nat
  confidence : Option Rat
  deriving Repr, DecidableEq

structure StatusObj where
  code : Option String
  deriving Repr, DecidableEq

structure WebhookData where
  bot_id : Option String
  segment : Option Segment
  status : Option StatusObj
  deriving Repr, DecidableEq

structure WebhookBody where
  event : Option String
  data : Option WebhookData
  deriving Repr, DecidableEq

/-- `segment.words?.map(w => w.text).join(' ') || ""` — absent words list and
empty join both give `""`. -/
def wordsText (seg : Segment) : String :=
  match seg.words with
  | some ws => String.intercalate " " (ws.map (fun w => w.text))
  | none => ""

/-- `segment.text || segment.words?.map(w => w.text).join(' ') || ""`
(webhookController.js line 60). -/
def segmentText (seg : Segment) : String :=
  match seg.text with
  | some t => if t = "" then wordsText seg else t
  | none => wordsText seg

/-- `segment.is_final !== false` — true unless the field is literally `false`
(webhookController.js line 61). -/
def segmentIsFinal (seg : Segment) : Bool :=
  seg.is_final != some false

/-- `segment.start_time ? new Date(segment.start_time) : new Date()` —
a missing or zero (falsy) start time becomes the ingestion time
(webhookController.js lines 62-64). -/
def segmentTimestamp (seg : Segment) (now : Nat) : Nat :=
  match seg.start_time with
  | some t => if t = 0 then now else t
  | none => now

/-- `segment.confidence || 1.0` (webhookController.js line 85). -/
def segmentConfidence (seg : Segment) : Rat :=
  match seg.confidence with
  | some c => if c = 0 then 1 else c
  | none => 1

/-- Externally observable actions of the webhook route handler, in program
order. `respond` is the HTTP response; the two `emit*` actions are the
`recallService.emit` calls. -/
inductive WebhookAction where
  | respond (status : Nat)
  | emitTranscript (ev : TranscriptEvent)
  | emitStatusChanged (botId status : String)
  deriving Repr, DecidableEq

/-- Body of the `try` block of `router.post("/recall")` (webhookController.js
lines 24-111), run after the 200 acknowledgement: dispatch on `event.event`.
A `transcript.segment` whose `bot_id` has no `activeBots` entry is dropped
after the warning log; a `bot.status_change` with truthy `bot_id` and
`status.code` updates the cached status and emits `bot-status-changed`.
Returns the `recallService.emit` calls made and the registry after the
request; any exception inside this block is caught and produces nothing. -/
def processRecallWebhook (reg : Registry) (body : WebhookBody) (now : Nat) :
    List WebhookAction × Registry :=
  if body.event == some "transcript.segment" then
    match body.data with
    | none => ([], reg)
    | some data =>
      match data.bot_id, data.segment with
      | some botId, some seg =>
        if botId = "" then ([], reg)
        else
          match findBot reg botId with
          | none => ([], reg)
          | some botInfo =>
            let ev : TranscriptEvent :=
              { botId := botId
                userId := botInfo.userId
                speaker := strOr seg.speaker "Unknown"
                text := segmentText seg
                isFinal := segmentIsFinal seg
                timestamp := segmentTimestamp seg now
                confidence := segmentConfidence seg }
            ([WebhookAction.emitTranscript ev], reg)
      | _, _ => ([], reg)
  else if body.event == some "bot.status_change" then
    match body.data.bind (fun d => d.bot_id),
          (body.data.bind (fun d => d.status)).bind (fun st => st.code) with
    | some b, some s =>
      if b = "" ∨ s = "" then ([], reg)
      else
        ([WebhookAction.emitStatusChanged b s],
         reg.map (fun x => if x.botId = b then { x with status := s } else x))
    | _, _ => ([], reg)
  else ([], reg)

/-- `router.post("/recall")` (webhookController.js lines 20-112):
`res.sendStatus(200)` is the first statement of the handler, before the
request body is examined at all; the `try` block follows.  The action trace
therefore always starts with the 200 response. -/
def handleRecallWebhook (reg : Registry) (body : WebhookBody) (now : Nat) :
    List WebhookAction × Registry :=
  let p := processRecallWebhook reg body now
  (WebhookAction.respond 200 :: p.1, p.2)

/-! ## Persisted meeting records (`models/Meeting.js`)

`transcriptionSchema` requires `speaker` (defaulted to `'Unknown'`) and
`text` (no default: Mongoose rejects a missing or empty-string value of a
required `String` path), and constrains `confidence` to `[0, 1]`.
`meetingSchema` keys a record by `userId`/`botId` with
`status ∈ {active, ended}` and embeds the list of transcription entries. -/

structure TranscriptionEntry where
  speaker : String
  text : String
  confidence : Rat
  timestamp : Nat
  deriving Repr, DecidableEq

structure Meeting where
  userId : String
  botId : Option String
  status : String
  transcriptions : List TranscriptionEntry
  deriving Repr, DecidableEq

/-- Mongoose validation of one embedded transcription document:
`required: true` on the `speaker` and `text` `String` paths rejects the empty
string, and `confidence` carries `min: 0, max: 1`. -/
def entryValid (e : TranscriptionEntry) : Bool :=
  e.speaker != "" && e.text != "" && decide (0 ≤ e.confidence) && decide (e.confidence ≤ 1)

/-- `document.save()` validates every embedded transcription entry. -/
def meetingValid (m : Meeting) : Bool :=
  m.transcriptions.all entryValid

/-- The storage layer: `connected` is `mongoose.connection.readyState === 1`,
`saveFails` forces every `save()` to reject (storage unreachable), and
`meetings` is the collection in insertion order. -/
structure Database where
  connected : Bool
  saveFails : Bool
  meetings : List Meeting
  deriving Repr, DecidableEq

/-- `Meeting.findOne({ botId, userId, status: { $ne: 'ended' } })` — index of
the first matching document. -/
def findOpenMeetingIdx (ms : List Meeting) (botId userId : String) : Option Nat :=
  ms.findIdx? (fun m => m.botId == some botId && m.userId == userId && m.status != "ended")

/-- `await meeting.save()` after a push: the new document replaces the old one
only when storage is reachable and validation passes; otherwise `save()`
rejects, the handler catches `dbError` and the stored collection is
unchanged. -/
def trySaveMeeting (db : Database) (idx : Nat) (m : Meeting) : Database :=
  if db.saveFails || !meetingValid m then db
  else { db with meetings := db.meetings.set idx m }

/-! ## Live client connections (`index.js`)

`wsClients : Map ws -> { clientId, userId, botId }`; a connection may appear
in `wss.clients` without a `wsClients` entry (`metadata` then `undefined`),
so the metadata is optional.  `readyState === 1` is the open check. -/

structure ConnMeta where
  clientId : String
  userId : Option String
  botId : Option String
  deriving Repr, DecidableEq

structure WSClient where
  readyState : Nat
  meta : Option ConnMeta
  deriving Repr, DecidableEq

/-- Server → client messages sent by the broadcast handlers. -/
inductive ClientMessage where
  | transcription (speaker text : String) (isFinal : Bool) (timestamp : Nat)
      (confidence : Rat) (botId : String)
  | botCreated (botId userId status : String)
  | botLeft (botId : String) (userId : Option String)
  deriving Repr, DecidableEq

/-- Broadcast loop of the `'transcript'` handler (index.js lines 306-328):
deliver the event to every open connection whose registered
`metadata?.userId === userId`; the forwarded payload copies the event fields
verbatim. -/
def broadcastTranscript (clients : List WSClient) (ev : TranscriptEvent) :
    List (WSClient × ClientMessage) :=
  clients.filterMap (fun c =>
    if c.readyState = 1 then
      match c.meta with
      | some m =>
        if m.userId == some ev.userId then
          some (c, ClientMessage.transcription ev.speaker ev.text ev.isFinal
                     ev.timestamp ev.confidence ev.botId)
        else none
      | none => none
    else none)

/-- `'bot-created'` handler (index.js lines 237-257): the guard is only
`if (metadata)` — every open connection that has a `wsClients` entry gets the
`bot_created` message, whatever user it registered. -/
def broadcastBotCreated (clients : List WSClient) (botId userId status : String) :
    List (WSClient × ClientMessage) :=
  clients.filterMap (fun c =>
    if c.readyState = 1 then
      match c.meta with
      | some _ => some (c, ClientMessage.botCreated botId userId status)
      | none => none
    else none)

/-- `'bot-left'` handler (index.js lines 259-277): same `if (metadata)` guard
as `'bot-created'`. -/
def broadcastBotLeft (clients : List WSClient) (botId : String) (userId : Option String) :
    List (WSClient × ClientMessage) :=
  clients.filterMap (fun c =>
    if c.readyState = 1 then
      match c.meta with
      | some _ => some (c, ClientMessage.botLeft botId userId)
      | none => none
    else none)

/-- `case "register_user"` (index.js lines 156-182): a falsy `userId` is
rejected with an error message; otherwise the single `userId` field of the
connection's metadata is overwritten.  Returns the new metadata and whether
registration succeeded. -/
def registerUserMsg (m : ConnMeta) (userId : String) : ConnMeta × Bool :=
  if userId = "" then (m, false)
  else ({ m with userId := some userId }, true)

/-- Transcription entry pushed by the `'transcript'` handler
(index.js lines 292-297): `speaker || 'Unknown'`, `confidence || 1.0`; the
`timestamp || new Date()` fallback never fires because the emitted event
always carries a `Date`, which is truthy. -/
def persistEntry (ev : TranscriptEvent) : TranscriptionEntry :=
  { speaker := strOr (some ev.speaker) "Unknown"
    text := ev.text
    confidence := if ev.confidence = 0 then 1 else ev.confidence
    timestamp := ev.timestamp }

/-- Persistence branch of the `'transcript'` handler (index.js lines
286-304): when the event is final and the connection is up, look up the open
meeting for `(botId, userId)`, push the entry and save — any storage error
is caught (`dbError`) and logged, leaving the collection as it was. -/
def persistTranscript (db : Database) (ev : TranscriptEvent) : Database :=
  if ev.isFinal && db.connected then
    match findOpenMeetingIdx db.meetings ev.botId ev.userId with
    | some i =>
      match db.meetings[i]? with
      | some m =>
        trySaveMeeting db i { m with transcriptions := m.transcriptions ++ [persistEntry ev] }
      | none => db
    | none => db
  else db

/-- `recallService.on("transcript")` (index.js lines 280-329): the
persistence branch runs first, then the broadcast loop delivers the event to
this user's open connections.  Returns the database after the handler and
the deliveries made. -/
def handleTranscript (db : Database) (clients : List WSClient) (ev : TranscriptEvent) :
    Database × List (WSClient × ClientMessage) :=
  (persistTranscript db ev, broadcastTranscript clients ev)

/-! ## Transcript channels (`recallService.transcriptConnections`)

One entry of `this.transcriptConnections : Map botId -> connection`:
`{ type: 'webhook' | 'websocket', userId, ws? }` (recallService.js lines
266-270 and 323-328).  `hasWs` records whether the entry carries a live
`ws` object (websocket mode). -/

inductive ChannelType where
  | webhook
  | websocket
  deriving Repr, DecidableEq

structure TranscriptConnection where
  botId : String
  ctype : ChannelType
  userId : String
  hasWs : Bool
  deriving Repr, DecidableEq

/-- Events the service emits on its own emitter (`this.emit`). -/
inductive ServiceEvent where
  | botCreated (botId userId status : String)
  | botLeft (botId : String) (userId : Option String)
  deriving Repr, DecidableEq

/-- The mutable state of the `RecallService` singleton. -/
structure ServiceState where
  activeBots : Registry
  transcriptConnections : List TranscriptConnection
  deriving Repr, DecidableEq

/-- `RecallService.leaveBot` (recallService.js lines 212-247).  `deleteOk`
is the outcome of `await axios.delete`; when it is `false` the promise
rejects, control jumps to the catch block which logs and rethrows, and none
of the local cleanup after the await runs.  On success: close the websocket
of the connection entry if there is one, drop the entry, drop the bot from
`activeBots`, and emit `bot-left`.  The result carries the state after the
call, the `Except` outcome, and the list of bot ids whose provider socket
got a `ws.close()` call. -/
def leaveBot (s : ServiceState) (deleteOk : Bool) (botId : String) :
    ServiceState × Except String (List ServiceEvent) × List String :=
  if !deleteOk then (s, Except.error "delete failed", [])
  else
    let closed :=
      match s.transcriptConnections.find? (fun t => t.botId == botId) with
      | some conn => if conn.ctype == ChannelType.websocket && conn.hasWs then [botId] else []
      | none => []
    let conns := s.transcriptConnections.filter (fun t => t.botId != botId)
    let botInfo := findBot s.activeBots botId
    let bots := s.activeBots.filter (fun b => b.botId != botId)
    ({ activeBots := bots, transcriptConnections := conns },
     Except.ok [ServiceEvent.botLeft botId (botInfo.map (fun b => b.userId))],
     closed)

/-- `RecallService.getBotStatus` (recallService.js lines 186-204).  `resp`
is the outcome of the single `await axios.get` (no retry loop exists): on a
fetch error the catch returns `null` and nothing is touched; on success the
handler writes `bot.status?.code || bot.status` into the cached
`activeBots` entry when one exists, then returns the provider object. -/
def getBotStatus (s : ServiceState) (botId : String) (resp : Option GatewayBot) :
    ServiceState × Option GatewayBot :=
  match resp with
  | none => (s, none)
  | some bot =>
    ({ s with activeBots := s.activeBots.map (fun b =>
         if b.botId = botId then { b with status := statusOf bot.status } else b) },
     some bot)

/-! ## Interleaving machine for `createBot` (recallService.js lines 63-178)

`createBot` runs a synchronous prefix — the config check and the
`getBotByUserId` duplicate check (lines 72-78) — then suspends at
`await axios.post` (line 124), and only after the provider responds does it
insert the bot into `activeBots` (lines 134-141).  Each launch call is a
task with a program counter at one of those points; a schedule picks which
task advances, giving the run-loop interleaving semantics of §5 of the
spec. -/

structure LaunchCall where
  userId : String
  meetingUrl : String
  botName : String
  assignedBotId : String
  deriving Repr, DecidableEq

inductive LaunchPC where
  | beforeCheck
  | awaitingCreate
  | succeeded
  | failedConflict
  deriving Repr, DecidableEq

structure LaunchSystem where
  reg : Registry
  tasks : List (LaunchCall × LaunchPC)
  deriving Repr, DecidableEq

/-- Bot metadata stored when the provider create call for `c` resolves
(recallService.js lines 134-141); creation wall-clock time abstracted to 0. -/
def mkLaunchBot (c : LaunchCall) : BotInfo :=
  { botId := c.assignedBotId
    meetingUrl := c.meetingUrl
    botName := c.botName
    userId := c.userId
    status := "created"
    createdAt := 0 }

/-- One scheduler step: advance task `i` past its next suspension point.
At `beforeCheck` the task runs the synchronous duplicate check: if
`getBotByUserId` finds any bot for the caller's user the call throws the
"already has an active bot" error, otherwise it issues the gateway create
and suspends.  At `awaitingCreate` the provider response arrives and the
task inserts its bot — no re-check happens on resume. -/
def launchStep (s : LaunchSystem) (i : Nat) : LaunchSystem :=
  match s.tasks[i]? with
  | none => s
  | some (c, pc) =>
    match pc with
    | LaunchPC.beforeCheck =>
      match getBotByUserId s.reg c.userId with
      | some _ => { s with tasks := s.tasks.set i (c, LaunchPC.failedConflict) }
      | none => { s with tasks := s.tasks.set i (c, LaunchPC.awaitingCreate) }
    | LaunchPC.awaitingCreate =>
      { reg := s.reg ++ [mkLaunchBot c],
        tasks := s.tasks.set i (c, LaunchPC.succeeded) }
    | _ => s

/-- Run a schedule of task indices from a start state. -/
def launchRun (s : LaunchSystem) (sched : List Nat) : LaunchSystem :=
  sched.foldl launchStep s

/-! ## Client transcript hook (`useTranscription.ts`)

State entry built in the `'transcription'` case of `ws.onmessage` (lines
94-103): the hook copies `speaker || 'User'`, `text`, `timestamp`,
`isFinal`, `confidence` and drops the payload's `botId`; the random `id`
string is an identifier with no behavioural role and is omitted. -/

structure Transcription where
  speaker : String
  text : String
  timestamp : Nat
  isFinal : Bool
  confidence : Rat
  deriving Repr, DecidableEq

/-- Payload of a server `transcription` message (`message.data`), as sent by
the backend broadcast loop. -/
structure TranscriptionData where
  botId : String
  speaker : String
  text : String
  isFinal : Bool
  timestamp : Nat
  confidence : Rat
  deriving Repr, DecidableEq

/-- `newTranscription` built from `message.data` (useTranscription.ts lines
96-103). -/
def mkTranscription (d : TranscriptionData) : Transcription :=
  { speaker := if d.speaker = "" then "User" else d.speaker
    text := d.text
    timestamp := d.timestamp
    isFinal := d.isFinal
    confidence := d.confidence }

/-- The `setTranscriptions` updater (useTranscription.ts lines 107-114):
when the incoming entry is interim and the list's last entry is interim, the
last entry is replaced; otherwise the entry is appended.  The test reads
only `isFinal` flags — no source identity is consulted. -/
def addTranscription (prev : List Transcription) (t : Transcription) : List Transcription :=
  match prev.getLast? with
  | some last =>
    if !t.isFinal && !last.isFinal then prev.dropLast ++ [t]
    else prev ++ [t]
  | none => prev ++ [t]

/-- Fold a sequence of delivered `transcription` messages through the hook's
state updater. -/
def processMessages (init : List Transcription) (msgs : List TranscriptionData) :
    List Transcription :=
  msgs.foldl (fun st d => addTranscription st (mkTranscription d)) init

/-! ## Concrete inputs for witnesses and counterexamples -/

def launchC1A : LaunchCall :=
  { userId := "u1", meetingUrl := "https://meet.example/a",
    botName := "AI Assistant", assignedBotId := "b1" }

def launchC1B : LaunchCall :=
  { userId := "u1", meetingUrl := "https://meet.example/b",
    botName := "AI Assistant", assignedBotId := "b2" }

/-- Two fresh launch requests for the same user, nothing registered yet. -/
def launchSysC1 : LaunchSystem :=
  { reg := [], tasks := [(launchC1A, LaunchPC.beforeCheck), (launchC1B, LaunchPC.beforeCheck)] }

/-- A launch request arriving while `u1` already has a registered bot. -/
def launchBusyC1 : LaunchSystem :=
  { reg := [mkLaunchBot launchC1A], tasks := [(launchC1B, LaunchPC.beforeCheck)] }

def botC2 : BotInfo :=
  { botId := "b1", meetingUrl := "https://meet.example/a", botName := "AI Assistant",
    userId := "u1", status := "in_call_recording", createdAt := 0 }

def connC2 : TranscriptConnection :=
  { botId := "b1", ctype := ChannelType.websocket, userId := "u1", hasWs := true }

/-- Service state with one active bot whose websocket channel is open. -/
def svcC2 : ServiceState := { activeBots := [botC2], transcriptConnections := [connC2] }

def interimA1C3 : TranscriptionData :=
  { botId := "bA", speaker := "Alice", text := "first interim from source A",
    isFinal := false, timestamp := 1, confidence := 1 }

def interimB1C3 : TranscriptionData :=
  { botId := "bB", speaker := "Bob", text := "interim from source B",
    isFinal := false, timestamp := 2, confidence := 1 }

def i1C3 : TranscriptionData :=
  { botId := "bA", speaker := "Alice", text := "hel",
    isFinal := false, timestamp := 1, confidence := 1 }

def i2C3 : TranscriptionData :=
  { botId := "bA", speaker := "Alice", text := "hello",
    isFinal := false, timestamp := 2, confidence := 1 }

def fC3 : TranscriptionData :=
  { botId := "bA", speaker := "Alice", text := "hello world",
    isFinal := true, timestamp := 3, confidence := 1 }

def meetingC4 : Meeting := { userId := "u1", botId := some "b1", status := "active", transcriptions := [] }

def dbC4 : Database := { connected := true, saveFails := false, meetings := [meetingC4] }

def clientC4 : WSClient := { readyState := 1, meta := some { clientId := "c1", userId := some "u1", botId := none } }

def evC4 : TranscriptEvent :=
  { botId := "b1", userId := "u1", speaker := "Alice", text := "hello",
    isFinal := true, timestamp := 5, confidence := 1 }

/-- A live connection whose only registration is under user `U2`. -/
def connU2C5 : WSClient := { readyState := 1, meta := some { clientId := "c2", userId := some "U2", botId := none } }

/-- A transcript event owned by user `U1`. -/
def evU1C5 : TranscriptEvent :=
  { botId := "b1", userId := "U1", speaker := "Alice", text := "hello",
    isFinal := true, timestamp := 5, confidence := 1 }

def segC6 : Segment :=
  { speaker := some "Alice", text := some "hello", words := none,
    is_final := some true, start_time := some 7, confidence := some 1 }

/-- A `transcript.segment` webhook naming a bot id with no Registry entry. -/
def bodyC6 : WebhookBody :=
  { event := some "transcript.segment",
    data := some { bot_id := some "ghost", segment := some segC6, status := none } }

def regC6 : Registry :=
  [{ botId := "b1", meetingUrl := "https://meet.example/a", botName := "AI Assistant",
     userId := "u1", status := "in_call", createdAt := 0 }]

def dbFailC7 : Database := { connected := true, saveFails := true, meetings := [meetingC4] }

def svcC8 : ServiceState :=
  { activeBots := [{ botId := "b1", meetingUrl := "https://meet.example/a",
                     botName := "AI Assistant", userId := "u1", status := "created", createdAt := 0 }],
    transcriptConnections := [] }

def respC8 : GatewayBot := { id := "b1", status := ProviderStatus.coded "in_call_recording" }

def evEmptyC9 : TranscriptEvent :=
  { botId := "b1", userId := "u1", speaker := "Alice", text := "",
    isFinal := true, timestamp := 5, confidence := 1 }

def dbC9 : Database :=
  { connected := true, saveFails := false,
    meetings := [{ userId := "u1", botId := some "b1", status := "active",
                   transcriptions := [{ speaker := "Bob", text := "earlier", confidence := 1, timestamp := 1 }] }] }

def connC10 : WSClient := { readyState := 1, meta := some { clientId := "c1", userId := some "U1", botId := none } }

def metaC10 : ConnMeta := { clientId := "c1", userId := some "U1", botId := none }

def evOldC10 : TranscriptEvent :=
  { botId := "b1", userId := "U1", speaker := "Alice", text := "old user event",
    isFinal := true, timestamp := 5, confidence := 1 }

def evNewC10 : TranscriptEvent :=
  { botId := "b2", userId := "U2", speaker := "Bob", text := "new user event",
    isFinal := true, timestamp := 6, confidence := 1 }

/-! ## Claim C1 — at-most-one-session-per-user -/

/-- Claim C1 fails on the code: two `createBot` calls for the same user,
interleaved at the `await axios.post` suspension point (schedule first-check,
second-check, first-insert, second-insert), both succeed — neither throws the
"already has an active bot" error — and the registry then holds two
non-terminal sessions for `u1`. -/
theorem C1_interleaved_launch_counterexample :
    (launchRun launchSysC1 [0, 1, 0, 1]).tasks.map (fun t => t.2)
        = [LaunchPC.succeeded, LaunchPC.succeeded] ∧
    ((launchRun launchSysC1 [0, 1, 0, 1]).reg.filter (fun b => b.userId == "u1")).length = 2 ∧
    (launchRun launchSysC1 [0, 1, 0, 1]).reg.all
        (fun b => b.status != "done" && b.status != "fatal") = true := by
  decide

/-- Claim C1 amended: the duplicate check of `createBot` rejects a launch
whenever the registry already holds any bot for the caller's user, and a
launch whose check finds none proceeds — but the check happens before the
gateway-create suspension point and the insert happens after it, with no
re-check on resume, so two launches interleaved at that point both pass the
check and both register (the interleaving itself is the counterexample
theorem).  Stated as the three possible steps of a launch task. -/
theorem C1_check_insert_race (s : LaunchSystem) (i : Nat) (c : LaunchCall) :
    (s.tasks[i]? = some (c, LaunchPC.beforeCheck) →
      getBotByUserId s.reg c.userId ≠ none →
      launchStep s i = { s with tasks := s.tasks.set i (c, LaunchPC.failedConflict) }) ∧
    (s.tasks[i]? = some (c, LaunchPC.beforeCheck) →
      getBotByUserId s.reg c.userId = none →
      launchStep s i = { s with tasks := s.tasks.set i (c, LaunchPC.awaitingCreate) }) ∧
    (s.tasks[i]? = some (c, LaunchPC.awaitingCreate) →
      launchStep s i = { reg := s.reg ++ [mkLaunchBot c],
                         tasks := s.tasks.set i (c, LaunchPC.succeeded) }) := by
  refine ⟨?_, ?_, ?_⟩
  · intro h1 h2
    cases hg : getBotByUserId s.reg c.userId with
    | none => exact absurd hg h2
    | some b => simp [launchStep, h1, hg]
  · intro h1 h2
    simp [launchStep, h1, h2]
  · intro h1
    simp [launchStep, h1]

/-- Witness for `C1_check_insert_race`: with a bot for `u1` already
registered, a second launch for `u1` is rejected at the check. -/
theorem C1_check_insert_race_witness :
    launchStep launchBusyC1 0
      = { launchBusyC1 with tasks := launchBusyC1.tasks.set 0 (launchC1B, LaunchPC.failedConflict) } :=
  (C1_check_insert_race launchBusyC1 0 launchC1B).1 rfl (by decide)

/-! ## Claim C2 — cleanup on terminate -/

/-- Claim C2 fails on the code: with bot `b1` registered and its websocket
transcript channel open, a `leaveBot "b1"` whose remote `axios.delete`
rejects rethrows the error and performs no local cleanup — the registry
still contains the session and the channel entry is untouched and still
open. -/
theorem C2_remote_failure_counterexample :
    leaveBot svcC2 false "b1" = (svcC2, Except.error "delete failed", []) ∧
    findBot (leaveBot svcC2 false "b1").1.activeBots "b1" = some botC2 ∧
    (leaveBot svcC2 false "b1").1.transcriptConnections = [connC2] := by
  refine ⟨rfl, by decide, by decide⟩

/-- Claim C2 amended: local cleanup is tied to remote success.  When the
remote delete succeeds, `leaveBot` removes the session from the registry,
removes its transcript-channel entry (closing the websocket when one is
open), and emits `bot-left`; when the remote delete fails, `leaveBot`
rethrows and leaves the service state completely unchanged. -/
theorem C2_cleanup_only_on_success (s : ServiceState) (botId : String) :
    findBot (leaveBot s true botId).1.activeBots botId = none ∧
    (leaveBot s true botId).1.transcriptConnections.find? (fun t => t.botId == botId) = none ∧
    (leaveBot s true botId).2.1
      = Except.ok [ServiceEvent.botLeft botId ((findBot s.activeBots botId).map (fun b => b.userId))] ∧
    (∀ conn, s.transcriptConnections.find? (fun t => t.botId == botId) = some conn →
      conn.ctype = ChannelType.websocket → conn.hasWs = true →
      (leaveBot s true botId).2.2 = [botId]) ∧
    leaveBot s false botId = (s, Except.error "delete failed", []) := by
  refine ⟨?_, ?_, rfl, ?_, rfl⟩
  · rw [findBot, List.find?_eq_none]
    intro b hb
    have hmem := List.mem_filter.mp hb
    simpa using hmem.2
  · rw [List.find?_eq_none]
    intro t ht
    have hmem := List.mem_filter.mp ht
    simpa using hmem.2
  · intro conn hfind hws hlive
    simp [leaveBot, hfind, hws, hlive]

/-- Witness for `C2_cleanup_only_on_success`: leaving bot `b1`, whose
websocket transcript connection is open, reports the `ws.close()` call for
`b1` on the successful path. -/
theorem C2_cleanup_only_on_success_witness :
    (leaveBot svcC2 true "b1").2.2 = ["b1"] :=
  (C2_cleanup_only_on_success svcC2 "b1").2.2.2.1 connC2 rfl rfl rfl

/-! ## Claim C3 — interim supersession -/

/-- Claim C3 fails on the code: the hook's replacement rule never consults a
source identity (the `botId` of the payload is dropped when the state entry
is built), so an interim from source `bB` replaces the pending interim from
source `bA`: after the two interims the rendered list retains only the `bB`
line and the `bA` interim is gone. -/
theorem C3_cross_source_counterexample :
    processMessages [] [interimA1C3, interimB1C3] = [mkTranscription interimB1C3] ∧
    (processMessages [] [interimA1C3, interimB1C3]).all
      (fun t => t.text != interimA1C3.text) = true := by
  decide

/-- Claim C3 amended: for interim events `I1, I2` followed by final `F`, the
rendered list ends in `I2` before `F` arrives (`I1` replaced, not appended,
and never re-appearing) and ends in `F` appended permanently after `F`
arrives — but the replacement is keyed solely on the finality flag of the
list's last entry, not on `sourceId`, so an interim belonging to a different
`sourceId` replaces the pending interim just the same (counterexample
theorem).  `prev` is any rendered state that is empty or ends in a final
line. -/
theorem C3_interim_supersession_amended (prev : List Transcription)
    (i1 i2 f : TranscriptionData)
    (hprev : prev.getLast? = none ∨ ∃ last, prev.getLast? = some last ∧ last.isFinal = true)
    (h1 : i1.isFinal = false) (h2 : i2.isFinal = false) (hf : f.isFinal = true) :
    processMessages prev [i1, i2] = prev ++ [mkTranscription i2] ∧
    processMessages prev [i1, i2, f] = prev ++ [mkTranscription i2, mkTranscription f] := by
  have step1 : addTranscription prev (mkTranscription i1) = prev ++ [mkTranscription i1] := by
    rcases hprev with hnil | ⟨last, hlast, hfin⟩
    · simp [addTranscription, hnil]
    · simp [addTranscription, hlast, hfin]
  have step2 : addTranscription (prev ++ [mkTranscription i1]) (mkTranscription i2)
      = prev ++ [mkTranscription i2] := by
    simp [addTranscription, List.getLast?_concat, List.dropLast_concat, mkTranscription, h1, h2]
  have step3 : addTranscription (prev ++ [mkTranscription i2]) (mkTranscription f)
      = prev ++ [mkTranscription i2, mkTranscription f] := by
    simp [addTranscription, List.getLast?_concat, mkTranscription, hf]
  refine ⟨?_, ?_⟩
  · show addTranscription (addTranscription prev (mkTranscription i1)) (mkTranscription i2) = _
    rw [step1, step2]
  · show addTranscription (addTranscription (addTranscription prev (mkTranscription i1))
        (mkTranscription i2)) (mkTranscription f) = _
    rw [step1, step2, step3]

/-- Witness for `C3_interim_supersession_amended`: the same-source sequence
`I1, I2, F` from the empty rendered state. -/
theorem C3_interim_supersession_amended_witness :
    processMessages [] [i1C3, i2C3] = [mkTranscription i2C3] ∧
    processMessages [] [i1C3, i2C3, fC3] = [mkTranscription i2C3, mkTranscription fC3] :=
  C3_interim_supersession_amended [] i1C3 i2C3 fC3 (Or.inl rfl) rfl rfl rfl

/-! ## Claim C4 — final-only persistence -/

/-- Claim C4: an interim (`isFinal = false`) event is never appended to any
meeting's transcript list, and a final event is persisted exactly once — the
collection after the handler is the old collection with exactly one entry
appended to exactly the open meeting record found for the event's
`(botId, userId)` — when storage is reachable and the saved document passes
validation. -/
theorem C4_final_only_persistence (db : Database) (clients : List WSClient)
    (ev : TranscriptEvent) :
    (ev.isFinal = false → (handleTranscript db clients ev).1.meetings = db.meetings) ∧
    (∀ i m, ev.isFinal = true → db.connected = true → db.saveFails = false →
      findOpenMeetingIdx db.meetings ev.botId ev.userId = some i →
      db.meetings[i]? = some m →
      meetingValid { m with transcriptions := m.transcriptions ++ [persistEntry ev] } = true →
      (handleTranscript db clients ev).1.meetings
        = db.meetings.set i { m with transcriptions := m.transcriptions ++ [persistEntry ev] }) := by
  constructor
  · intro h
    simp [handleTranscript, persistTranscript, h]
  · intro i m hF hconn hok hidx hm hvalid
    simp [handleTranscript, persistTranscript, hF, hconn, hidx, hm, trySaveMeeting, hok, hvalid]

/-- Witness for `C4_final_only_persistence`: a final `"hello"` event lands
exactly once in the single open meeting for `("b1", "u1")`. -/
theorem C4_final_only_persistence_witness :
    (handleTranscript dbC4 [clientC4] evC4).1.meetings
      = dbC4.meetings.set 0
          { meetingC4 with transcriptions := meetingC4.transcriptions ++ [persistEntry evC4] } :=
  (C4_final_only_persistence dbC4 [clientC4] evC4).2 0 meetingC4 rfl rfl rfl
    (by decide) (by decide) (by decide)

/-! ## Claim C5 — fan-out isolation -/

/-- Claim C5 fails on the code for bot lifecycle events: a connection whose
only registration is under user `U2` receives the `bot_created` and
`bot_left` events of user `U1`'s bot, because the lifecycle handlers guard
only on `if (metadata)` — despite the code's own comment "Send to the user
who owns this bot".  Transcript events are filtered correctly: the same
connection receives nothing from `U1`'s transcript event. -/
theorem C5_lifecycle_broadcast_leak :
    broadcastBotCreated [connU2C5] "b1" "U1" "joining"
      = [(connU2C5, ClientMessage.botCreated "b1" "U1" "joining")] ∧
    broadcastBotLeft [connU2C5] "b1" (some "U1")
      = [(connU2C5, ClientMessage.botLeft "b1" (some "U1"))] ∧
    broadcastTranscript [connU2C5] evU1C5 = [] := by
  decide

/-! ## Claim C6 — unknown webhook target -/

/-- Claim C6: a `transcript.segment` webhook whose `bot_id` has no Registry
entry yields exactly the 200 response — no emitted events, no registry
change (and the handler is a total function, so no exception escapes) — and
for every request whatsoever the 200 response is the first action of the
trace, ahead of any processing of the body. -/
theorem C6_unknown_webhook_target (reg : Registry) (body : WebhookBody) (now : Nat)
    (b : String) (data : WebhookData) (seg : Segment)
    (hev : body.event = some "transcript.segment")
    (hdata : body.data = some data)
    (hbid : data.bot_id = some b)
    (hseg : data.segment = some seg)
    (hunknown : findBot reg b = none) :
    handleRecallWebhook reg body now = ([WebhookAction.respond 200], reg) ∧
    (∀ (reg2 : Registry) (body2 : WebhookBody) (now2 : Nat),
      (handleRecallWebhook reg2 body2 now2).1.head? = some (WebhookAction.respond 200)) := by
  constructor
  · by_cases hb : b = "" <;>
      simp [handleRecallWebhook, processRecallWebhook, hev, hdata, hbid, hseg, hunknown, hb]
  · intro reg2 body2 now2
    rfl

/-- Witness for `C6_unknown_webhook_target`: a webhook naming bot `"ghost"`
against a registry that only knows bot `"b1"`. -/
theorem C6_unknown_webhook_target_witness :
    handleRecallWebhook regC6 bodyC6 9 = ([WebhookAction.respond 200], regC6) ∧
    (∀ (reg2 : Registry) (body2 : WebhookBody) (now2 : Nat),
      (handleRecallWebhook reg2 body2 now2).1.head? = some (WebhookAction.respond 200)) :=
  C6_unknown_webhook_target regC6 bodyC6 9 "ghost"
    { bot_id := some "ghost", segment := some segC6, status := none } segC6
    rfl rfl rfl rfl (by decide)

/-! ## Claim C7 — persistence outage does not affect live delivery -/

/-- Claim C7: with storage forced to fail, the `'transcript'` handler (a
total function: the `dbError` catch keeps any storage failure from
propagating) makes exactly the same deliveries as with working storage —
every live connection registered under the event's user receives the event,
and every delivered message carries the event's `speaker`, `text`,
`isFinal`, `timestamp` and `confidence` verbatim. -/
theorem C7_persistence_outage_isolation (db : Database) (clients : List WSClient)
    (ev : TranscriptEvent) (_hfail : db.saveFails = true) :
    (handleTranscript db clients ev).2
        = (handleTranscript { db with saveFails := false } clients ev).2 ∧
    (∀ c ∈ clients, c.readyState = 1 →
      ∀ m, c.meta = some m → m.userId = some ev.userId →
      (c, ClientMessage.transcription ev.speaker ev.text ev.isFinal ev.timestamp
            ev.confidence ev.botId) ∈ (handleTranscript db clients ev).2) ∧
    (∀ d ∈ (handleTranscript db clients ev).2,
      d.2 = ClientMessage.transcription ev.speaker ev.text ev.isFinal ev.timestamp
              ev.confidence ev.botId) := by
  refine ⟨rfl, ?_, ?_⟩
  · intro c hc hrs m hm hu
    have : (c, ClientMessage.transcription ev.speaker ev.text ev.isFinal ev.timestamp
        ev.confidence ev.botId) ∈ broadcastTranscript clients ev := by
      unfold broadcastTranscript
      refine List.mem_filterMap.mpr ⟨c, hc, ?_⟩
      rw [if_pos hrs, hm]
      simp [hu]
    exact this
  · intro d hd
    have hd' : d ∈ broadcastTranscript clients ev := hd
    unfold broadcastTranscript at hd'
    obtain ⟨a, ha, hfa⟩ := List.mem_filterMap.mp hd'
    split at hfa
    · split at hfa
      · split at hfa
        · cases hfa; rfl
        · cases hfa
      · cases hfa
    · cases hfa

/-- Witness for `C7_persistence_outage_isolation`: a failing database and a
working one produce identical deliveries for a final event. -/
theorem C7_persistence_outage_isolation_witness :
    (handleTranscript dbFailC7 [clientC4] evC4).2
      = (handleTranscript { dbFailC7 with saveFails := false } [clientC4] evC4).2 :=
  (C7_persistence_outage_isolation dbFailC7 [clientC4] evC4 rfl).1

/-! ## Claim C8 — gateway statelessness of `getBotStatus` -/

/-- Claim C8 fails on the code: `getBotStatus` writes the fetched status
into the cached `activeBots` entry, so the registry's stored session table
is not left equal to its prior value. -/
theorem C8_cache_mutation_counterexample :
    (getBotStatus svcC8 "b1" (some respC8)).1.activeBots ≠ svcC8.activeBots := by
  decide

/-- Claim C8 amended: `getBotStatus` issues the single modelled request (no
retry), never adds or removes registry entries and never changes any field
but `status` (ids, owners, urls, names, creation times are preserved),
leaves the transcript-channel table untouched, and on a fetch error returns
`null` leaving the whole state unchanged — but on success it does update
the cached `status` of the queried bot's registry entry. -/
theorem C8_getBotStatus_frame (s : ServiceState) (botId : String) (resp : Option GatewayBot) :
    getBotStatus s botId none = (s, none) ∧
    (getBotStatus s botId resp).1.activeBots.map
        (fun b => (b.botId, b.userId, b.meetingUrl, b.botName, b.createdAt))
      = s.activeBots.map (fun b => (b.botId, b.userId, b.meetingUrl, b.botName, b.createdAt)) ∧
    (getBotStatus s botId resp).1.transcriptConnections = s.transcriptConnections ∧
    (∀ bot, resp = some bot →
      (getBotStatus s botId resp).1.activeBots
        = s.activeBots.map (fun b =>
            if b.botId = botId then { b with status := statusOf bot.status } else b)) := by
  refine ⟨rfl, ?_, ?_, ?_⟩
  · cases resp with
    | none => rfl
    | some bot =>
      simp only [getBotStatus, List.map_map]
      apply List.map_congr_left
      intro b _
      by_cases hb : b.botId = botId <;> simp [Function.comp, hb]
  · cases resp with
    | none => rfl
    | some bot => rfl
  · intro bot hresp
    subst hresp
    rfl

/-- Witness for `C8_getBotStatus_frame`: a successful fetch rewrites exactly
the queried bot's cached status. -/
theorem C8_getBotStatus_frame_witness :
    (getBotStatus svcC8 "b1" (some respC8)).1.activeBots
      = svcC8.activeBots.map (fun b =>
          if b.botId = "b1" then { b with status := statusOf respC8.status } else b) :=
  (C8_getBotStatus_frame svcC8 "b1" (some respC8)).2.2.2 respC8 rfl

/-! ## Claim C9 — empty text is never persisted -/

/-- A transcription entry that passed Mongoose validation has non-empty
text. -/
theorem entryValid_text_ne (e : TranscriptionEntry) (h : entryValid e = true) :
    e.text ≠ "" := by
  simp [entryValid] at h
  tauto

/-- The persistence branch either leaves the collection unchanged or
replaces one meeting by the same meeting with the event's entry appended,
and then only when the saved document passed validation. -/
theorem persistTranscript_meetings_cases (db : Database) (ev : TranscriptEvent) :
    (persistTranscript db ev).meetings = db.meetings ∨
    ∃ i m, db.meetings[i]? = some m ∧
      meetingValid { m with transcriptions := m.transcriptions ++ [persistEntry ev] } = true ∧
      (persistTranscript db ev).meetings
        = db.meetings.set i { m with transcriptions := m.transcriptions ++ [persistEntry ev] } := by
  by_cases hfc : (ev.isFinal && db.connected) = true
  · cases hidx : findOpenMeetingIdx db.meetings ev.botId ev.userId with
    | none => exact Or.inl (by simp [persistTranscript, hfc, hidx])
    | some i =>
      cases hm : db.meetings[i]? with
      | none => exact Or.inl (by simp [persistTranscript, hfc, hidx, hm])
      | some m =>
        by_cases hsv : (db.saveFails
            || !meetingValid { m with transcriptions := m.transcriptions ++ [persistEntry ev] })
            = true
        · exact Or.inl (by simp [persistTranscript, hfc, hidx, hm, trySaveMeeting, hsv])
        · have hsv' : db.saveFails = false
              ∧ meetingValid { m with transcriptions := m.transcriptions ++ [persistEntry ev] }
                  = true := by
            simpa using hsv
          right
          refine ⟨i, m, hm, hsv'.2, ?_⟩
          simp [persistTranscript, hfc, hidx, hm, trySaveMeeting, hsv'.1, hsv'.2]
  · exact Or.inl (by simp [persistTranscript, hfc])

/-- Claim C9: assuming every already-stored entry has non-empty text, a
transcript event whose text is empty leaves the stored collection
unchanged (the pushed document fails the schema's `required` validation and
`save()` rejects into the caught `dbError`), and no entry with empty text
is ever present after the handler runs. -/
theorem C9_empty_text_never_persisted (db : Database) (clients : List WSClient)
    (ev : TranscriptEvent)
    (hinv : ∀ m ∈ db.meetings, ∀ e ∈ m.transcriptions, e.text ≠ "") :
    (ev.text = "" → (handleTranscript db clients ev).1.meetings = db.meetings) ∧
    (∀ m ∈ (handleTranscript db clients ev).1.meetings,
      ∀ e ∈ m.transcriptions, e.text ≠ "") := by
  have hmain : ∀ m ∈ (persistTranscript db ev).meetings, ∀ e ∈ m.transcriptions, e.text ≠ "" := by
    rcases persistTranscript_meetings_cases db ev with h | ⟨i, m0, hm0, hvalid, heq⟩
    · rw [h]; exact hinv
    · rw [heq]
      intro m hm e he
      rcases List.mem_or_eq_of_mem_set hm with hmem | hEq
      · exact hinv m hmem e he
      · subst hEq
        have hall : ∀ x ∈ m0.transcriptions ++ [persistEntry ev], entryValid x = true := by
          have := hvalid
          unfold meetingValid at this
          exact List.all_eq_true.mp this
        exact entryValid_text_ne e (hall e he)
  constructor
  · intro htext
    rcases persistTranscript_meetings_cases db ev with h | ⟨i, m0, hm0, hvalid, heq⟩
    · exact h
    · exfalso
      have hall : ∀ x ∈ m0.transcriptions ++ [persistEntry ev], entryValid x = true := by
        have := hvalid
        unfold meetingValid at this
        exact List.all_eq_true.mp this
      have hne := entryValid_text_ne (persistEntry ev) (hall (persistEntry ev) (by simp))
      exact hne (by simp [persistEntry, htext])
  · exact hmain

/-- Witness for `C9_empty_text_never_persisted`: an empty-text final event
against a database holding one open meeting with one non-empty entry. -/
theorem C9_empty_text_never_persisted_witness :
    (evEmptyC9.text = "" → (handleTranscript dbC9 [] evEmptyC9).1.meetings = dbC9.meetings) ∧
    (∀ m ∈ (handleTranscript dbC9 [] evEmptyC9).1.meetings,
      ∀ e ∈ m.transcriptions, e.text ≠ "") :=
  C9_empty_text_never_persisted dbC9 [] evEmptyC9 (by decide)

/-! ## Claim C10 — one user per connection -/

/-- Claim C10: the connection metadata holds a single `userId` slot and
`register_user` overwrites it, so after re-registering under `u2` the
connection's registration is exactly `u2`; the broadcast loop then delivers
nothing owned by the previously registered `u1` to that connection, while
`u2`-owned transcript events reach it (when open) with the payload copied
verbatim. -/
theorem C10_one_user_per_connection (c : WSClient) (meta : ConnMeta) (u1 u2 : String)
    (_hmeta : c.meta = some meta) (_hprev : meta.userId = some u1)
    (hne : u1 ≠ u2) (hu2 : u2 ≠ "") :
    (registerUserMsg meta u2).1.userId = some u2 ∧
    (registerUserMsg meta u2).2 = true ∧
    (∀ ev : TranscriptEvent, ev.userId = u1 →
      broadcastTranscript [{ c with meta := some (registerUserMsg meta u2).1 }] ev = []) ∧
    (∀ ev : TranscriptEvent, ev.userId = u2 → c.readyState = 1 →
      broadcastTranscript [{ c with meta := some (registerUserMsg meta u2).1 }] ev
        = [({ c with meta := some (registerUserMsg meta u2).1 },
            ClientMessage.transcription ev.speaker ev.text ev.isFinal ev.timestamp
              ev.confidence ev.botId)]) := by
  have hreg : registerUserMsg meta u2 = ({ meta with userId := some u2 }, true) := by
    simp [registerUserMsg, hu2]
  refine ⟨by rw [hreg], by rw [hreg], ?_, ?_⟩
  · intro ev hev
    rw [hreg]
    by_cases hrs : c.readyState = 1 <;>
      simp [broadcastTranscript, List.filterMap_cons, hrs, hev, Ne.symm hne]
  · intro ev hev hrs
    rw [hreg]
    simp [broadcastTranscript, List.filterMap_cons, hrs, hev]

/-- Witness for `C10_one_user_per_connection`: a connection registered under
`U1` re-registers under `U2`; it then misses `U1`'s event and receives
`U2`'s. -/
theorem C10_one_user_per_connection_witness :
    broadcastTranscript [{ connC10 with meta := some (registerUserMsg metaC10 "U2").1 }]
        evOldC10 = [] ∧
    broadcastTranscript [{ connC10 with meta := some (registerUserMsg metaC10 "U2").1 }]
        evNewC10
      = [({ connC10 with meta := some (registerUserMsg metaC10 "U2").1 },
          ClientMessage.transcription evNewC10.speaker evNewC10.text evNewC10.isFinal
            evNewC10.timestamp evNewC10.confidence evNewC10.botId)] :=
  ⟨(C10_one_user_per_connection connC10 metaC10 "U1" "U2" rfl rfl (by decide) (by decide)).2.2.1
      evOldC10 rfl,
   (C10_one_user_per_connection connC10 metaC10 "U1" "U2" rfl rfl (by decide) (by decide)).2.2.2
      evNewC10 rfl rfl⟩

end SayLess
